import Mathlib

/-!
Verification of the StudyFlowAPI core against its natural-language
specification.  The TypeScript services are shallowly embedded as Lean
functions: strings are modelled as Lean `String`/`List Char` (the inputs
relevant to the claims are ASCII, where JavaScript UTF-16 semantics and
Lean character semantics agree), machine numbers as `Nat`/`Int`/`ℚ`,
external collaborators (database rows, the embedding provider, the chat
model, the vector store server) as explicit state or function parameters,
and thrown exceptions as `Except`/`Option` results.
-/

namespace StudyFlow

/-! ## Generated file name slug (GeneratedFilesService.generateFileName)

The source (src/unnamed/part_004, lines 1246-1252; identically
src/unnamed/part_005, lines 814-820):

  private generateFileName(displayName: string): string \x7b
    return displayName
      .toLowerCase()
      .replace(/[^a-z0-9]+/g, '-')
      .replace(/^-|-$/g, '')
      .substring(0, 50);
  \x7d
-/

/-- JavaScript `String.toLowerCase` restricted to one character; on the
ASCII range it maps 'A'..'Z' to 'a'..'z' and is the identity otherwise. -/
def jsToLower (c : Char) : Char :=
  if 'A' ≤ c && c ≤ 'Z' then Char.ofNat (c.toNat + 32) else c

/-- Membership in the regex character class `[a-z0-9]` (the characters a
slug keeps; the regex is applied after lowercasing). -/
def isSlugChar (c : Char) : Bool :=
  ('a' ≤ c && c ≤ 'z') || ('0' ≤ c && c ≤ '9')

/-- One pass of `replace(/[^a-z0-9]+/g, '-')`: every maximal run of
characters outside `[a-z0-9]` becomes a single `'-'`.  The boolean
argument records whether the scanner is currently inside such a run. -/
def collapseAux : Bool → List Char → List Char
  | _, [] => []
  | inRun, c :: cs =>
    if isSlugChar c then c :: collapseAux false cs
    else if inRun then collapseAux true cs
    else '-' :: collapseAux true cs

/-- The global replacement `replace(/[^a-z0-9]+/g, '-')`. -/
def collapseNonAlnum (l : List Char) : List Char := collapseAux false l

/-- Half of `replace(/^-|-$/g, '')`: drop a single leading dash. -/
def dropLeadDash : List Char → List Char
  | [] => []
  | c :: cs => if c = '-' then cs else c :: cs

/-- The other half of `replace(/^-|-$/g, '')`: drop a single trailing
dash (the regex matches `^-` at most once and `-$` at most once). -/
def dropTrailDash (l : List Char) : List Char :=
  (dropLeadDash l.reverse).reverse

/-- GeneratedFilesService.generateFileName: lowercase, collapse runs of
non-alphanumerics to `'-'`, strip one leading and one trailing dash, then
`substring(0, 50)`. -/
def generateFileName (displayName : List Char) : List Char :=
  (dropTrailDash (dropLeadDash (collapseNonAlnum (displayName.map jsToLower)))).take 50

/-- A character that can occur in a slug body: kept alphanumeric or dash. -/
def GoodChar (c : Char) : Prop := isSlugChar c = true ∨ c = '-'

/-- Adjacent characters are never both dashes. -/
def DashFree (a b : Char) : Prop := ¬(a = '-' ∧ b = '-')

/-- The list does not start with a dash. -/
def HeadNotDash (l : List Char) : Prop := ∀ c ∈ l.head?, c ≠ '-'

lemma isSlugChar_ne_dash {c : Char} (h : isSlugChar c = true) : c ≠ '-' := by
  rintro rfl; simp [isSlugChar] at h

lemma goodChar_not_slug {c : Char} (hg : GoodChar c) (h : isSlugChar c = false) :
    c = '-' := by
  rcases hg with hs | rfl
  · rw [hs] at h; cases h
  · rfl

lemma goodChar_of_mem_collapseAux :
    ∀ (b : Bool) (l : List Char) (c : Char), c ∈ collapseAux b l → GoodChar c := by
  intro b l
  induction l generalizing b with
  | nil => intro c hc; simp [collapseAux] at hc
  | cons a cs ih =>
    intro c hc
    by_cases ha : isSlugChar a = true
    · have heq : collapseAux b (a :: cs) = a :: collapseAux false cs := by
        cases b <;> simp [collapseAux, ha]
      rw [heq] at hc
      rcases List.mem_cons.mp hc with rfl | hc
      · exact Or.inl ha
      · exact ih false c hc
    · cases b with
      | true =>
        have heq : collapseAux true (a :: cs) = collapseAux true cs := by
          simp [collapseAux, ha]
        rw [heq] at hc
        exact ih true c hc
      | false =>
        have heq : collapseAux false (a :: cs) = '-' :: collapseAux true cs := by
          simp [collapseAux, ha]
        rw [heq] at hc
        rcases List.mem_cons.mp hc with rfl | hc
        · exact Or.inr rfl
        · exact ih true c hc

lemma collapseAux_chain :
    ∀ l : List Char,
      List.Chain' DashFree (collapseAux false l) ∧
      List.Chain' DashFree (collapseAux true l) ∧
      HeadNotDash (collapseAux true l) := by
  intro l
  induction l with
  | nil =>
    refine ⟨List.chain'_nil, List.chain'_nil, ?_⟩
    intro c hc; simp [collapseAux] at hc
  | cons a cs ih =>
    obtain ⟨ihF, ihT, ihH⟩ := ih
    by_cases ha : isSlugChar a = true
    · have hane : a ≠ '-' := isSlugChar_ne_dash ha
      have hchain : List.Chain' DashFree (a :: collapseAux false cs) := by
        refine List.chain'_cons'.mpr ⟨?_, ihF⟩
        intro y _; exact fun ⟨h1, _⟩ => hane h1
      refine ⟨?_, ?_, ?_⟩
      · simpa [collapseAux, ha] using hchain
      · simpa [collapseAux, ha] using hchain
      · have heq : collapseAux true (a :: cs) = a :: collapseAux false cs := by
          simp [collapseAux, ha]
        rw [heq]
        intro c hc
        simp only [List.head?_cons, Option.mem_def, Option.some.injEq] at hc
        subst hc; exact hane
    · refine ⟨?_, ?_, ?_⟩
      · simp only [collapseAux, ha, Bool.false_eq_true, if_false]
        refine List.chain'_cons'.mpr ⟨?_, ihT⟩
        intro y hy
        exact fun ⟨_, h2⟩ => ihH y hy h2
      · simpa [collapseAux, ha] using ihT
      · simpa [collapseAux, ha] using ihH

lemma collapseAux_id :
    ∀ l : List Char, (∀ c ∈ l, GoodChar c) → List.Chain' DashFree l →
      collapseAux false l = l ∧ (HeadNotDash l → collapseAux true l = l) := by
  intro l
  induction l with
  | nil => exact fun _ _ => ⟨rfl, fun _ => rfl⟩
  | cons a cs ih =>
    intro hg hch
    have hgcs : ∀ c ∈ cs, GoodChar c := fun c hc => hg c (List.mem_cons_of_mem a hc)
    obtain ⟨ihF, ihT⟩ := ih hgcs hch.tail
    by_cases ha : isSlugChar a = true
    · constructor
      · simp [collapseAux, ha, ihF]
      · intro _; simp [collapseAux, ha, ihF]
    · have haeq : a = '-' :=
        goodChar_not_slug (hg a (List.mem_cons_self a cs)) (by simpa using ha)
      subst haeq
      have hcsH : HeadNotDash cs := by
        intro c hc
        have := (List.chain'_cons'.mp hch).1 c hc
        exact fun hcd => this ⟨rfl, hcd⟩
      constructor
      · simp [collapseAux, ha, ihT hcsH]
      · intro hH
        exfalso
        exact hH '-' (by simp) rfl

lemma chain'_dropLeadDash {l : List Char} (h : List.Chain' DashFree l) :
    List.Chain' DashFree (dropLeadDash l) := by
  cases l with
  | nil => exact h
  | cons a cs =>
    by_cases ha : a = '-'
    · simpa [dropLeadDash, ha] using h.tail
    · simpa [dropLeadDash, ha] using h

lemma mem_dropLeadDash {l : List Char} {c : Char} (h : c ∈ dropLeadDash l) : c ∈ l := by
  cases l with
  | nil => exact h
  | cons a cs =>
    by_cases ha : a = '-'
    · simp only [dropLeadDash, ha, if_pos] at h
      exact List.mem_cons_of_mem a h
    · simpa [dropLeadDash, ha] using h

lemma headNotDash_dropLeadDash {l : List Char} (h : List.Chain' DashFree l) :
    HeadNotDash (dropLeadDash l) := by
  cases l with
  | nil => intro c hc; simp [dropLeadDash] at hc
  | cons a cs =>
    by_cases ha : a = '-'
    · subst ha
      simp only [dropLeadDash, if_pos]
      intro c hc hcd
      subst hcd
      have hc' : '-' ∈ cs.head? := hc
      have := (List.chain'_cons'.mp h).1 '-' hc'
      exact this ⟨rfl, rfl⟩
    · simp only [dropLeadDash, ha, if_neg, if_false]
      intro c hc hcd
      simp only [List.head?_cons, Option.mem_def, Option.some.injEq] at hc
      subst hc; exact ha hcd

lemma dropLeadDash_of_headNotDash {l : List Char} (h : HeadNotDash l) :
    dropLeadDash l = l := by
  cases l with
  | nil => rfl
  | cons a cs =>
    have : a ≠ '-' := h a (by simp)
    simp [dropLeadDash, this]

lemma dropTrailDash_eq (l : List Char) :
    dropTrailDash l = if l.getLast? = some '-' then l.dropLast else l := by
  rcases List.eq_nil_or_concat l with rfl | ⟨l', a, rfl⟩
  · rfl
  · by_cases ha : a = '-'
    · subst ha
      simp [dropTrailDash, dropLeadDash]
    · simp [dropTrailDash, dropLeadDash, ha]

lemma dropTrailDash_of_getLast_ne {l : List Char} (h : l.getLast? ≠ some '-') :
    dropTrailDash l = l := by
  rw [dropTrailDash_eq, if_neg h]

lemma mem_dropTrailDash {l : List Char} {c : Char} (h : c ∈ dropTrailDash l) : c ∈ l := by
  rw [dropTrailDash_eq] at h
  split at h
  · exact List.dropLast_subset l h
  · exact h

lemma chain'_dropTrailDash {l : List Char} (h : List.Chain' DashFree l) :
    List.Chain' DashFree (dropTrailDash l) := by
  rw [dropTrailDash_eq]
  split
  · rw [List.dropLast_eq_take]
    exact h.take _
  · exact h

lemma headNotDash_dropTrailDash {l : List Char} (h : HeadNotDash l) :
    HeadNotDash (dropTrailDash l) := by
  rw [dropTrailDash_eq]
  split
  · cases l with
    | nil => intro c hc; simp at hc
    | cons a cs =>
      cases cs with
      | nil => intro c hc; simp at hc
      | cons b t =>
        intro c hc
        simp only [List.dropLast_cons₂, List.head?_cons, Option.mem_def,
          Option.some.injEq] at hc
        subst hc
        exact h a (by simp)
  · exact h

lemma headNotDash_take {l : List Char} (n : Nat) (h : HeadNotDash l) :
    HeadNotDash (l.take n) := by
  intro c hc
  cases l with
  | nil => simp at hc
  | cons a cs =>
    cases n with
    | zero => simp at hc
    | succ m =>
      simp only [List.take_succ_cons, List.head?_cons, Option.mem_def,
        Option.some.injEq] at hc
      subst hc
      exact h a (by simp)

lemma jsToLower_of_goodChar {c : Char} (h : GoodChar c) : jsToLower c = c := by
  have hno : ('A' ≤ c && c ≤ 'Z') = false := by
    rcases h with hs | rfl
    · simp only [isSlugChar, Bool.or_eq_true, Bool.and_eq_true, decide_eq_true_eq] at hs
      rcases hs with ⟨h1, h2⟩ | ⟨h1, h2⟩
      · by_contra hAZ
        simp only [Bool.not_eq_false, Bool.and_eq_true, decide_eq_true_eq] at hAZ
        exact absurd (le_trans h1 hAZ.2) (by decide)
      · by_contra hAZ
        simp only [Bool.not_eq_false, Bool.and_eq_true, decide_eq_true_eq] at hAZ
        exact absurd (le_trans hAZ.1 h2) (by decide)
    · decide
  simp [jsToLower, hno]

/-- Every character of a computed slug is a kept alphanumeric or a dash. -/
lemma goodChar_of_mem_generateFileName {x : List Char} {c : Char}
    (h : c ∈ generateFileName x) : GoodChar c :=
  goodChar_of_mem_collapseAux false _ c
    (mem_dropLeadDash (mem_dropTrailDash (List.mem_of_mem_take h)))

/-- A computed slug never contains two adjacent dashes. -/
lemma chain'_generateFileName (x : List Char) :
    List.Chain' DashFree (generateFileName x) :=
  ((chain'_dropTrailDash (chain'_dropLeadDash
    (collapseAux_chain (x.map jsToLower)).1)).take _)

/-- A computed slug never starts with a dash. -/
lemma headNotDash_generateFileName (x : List Char) :
    HeadNotDash (generateFileName x) :=
  headNotDash_take _ (headNotDash_dropTrailDash
    (headNotDash_dropLeadDash (collapseAux_chain (x.map jsToLower)).1))

/-- C6 (counterexample): the slug function is not idempotent on every
input.  For 26 `a`s separated by single spaces the collapsed slug has 51
characters, so `substring(0, 50)` cuts it right after a dash; the second
application strips that trailing dash and yields a strictly shorter
string. -/
theorem C6_counterexample :
    generateFileName (generateFileName
        "a a a a a a a a a a a a a a a a a a a a a a a a a a".data) ≠
      generateFileName "a a a a a a a a a a a a a a a a a a a a a a a a a a".data := by
  decide

/-- C6 (amended): the slug function `generateFileName` (lowercase,
non-alphanumeric runs to `-`, strip leading/trailing `-`, truncate to 50
characters) is idempotent on every input whose slug does not end in a
dash — in particular on every input whose slug is shorter than the
50-character truncation bound.  (Truncation is applied after dash
stripping, so it can re-expose a trailing dash, the only obstruction to
idempotence.) -/
theorem C6_slug_idempotent_unless_trailing_dash (x : List Char)
    (h : (generateFileName x).getLast? ≠ some '-') :
    generateFileName (generateFileName x) = generateFileName x := by
  set s := generateFileName x with hs
  have hgood : ∀ c ∈ s, GoodChar c := fun c hc => goodChar_of_mem_generateFileName hc
  have hchain : List.Chain' DashFree s := chain'_generateFileName x
  have hhead : HeadNotDash s := headNotDash_generateFileName x
  have hmap : s.map jsToLower = s := by
    rw [List.map_congr_left (fun c hc => jsToLower_of_goodChar (hgood c hc))]
    exact List.map_id s
  have hcollapse : collapseNonAlnum s = s := (collapseAux_id s hgood hchain).1
  have hlead : dropLeadDash s = s := dropLeadDash_of_headNotDash hhead
  have htrail : dropTrailDash s = s := dropTrailDash_of_getLast_ne h
  have hlen : s.length ≤ 50 := by rw [hs, generateFileName]; exact List.length_take_le _ _
  show generateFileName s = s
  rw [generateFileName, hmap]
  rw [show collapseNonAlnum s = s from hcollapse, hlead, htrail,
    List.take_of_length_le hlen]

/-- Witness for C6: a concrete input whose slug does not end in a dash,
on which idempotence is realized. -/
theorem C6_witness :
    (generateFileName "Study Guide!".data).getLast? ≠ some '-' ∧
      generateFileName (generateFileName "Study Guide!".data) =
        generateFileName "Study Guide!".data :=
  ⟨by decide, C6_slug_idempotent_unless_trailing_dash _ (by decide)⟩

/-! ## Conversation memory (ConversationMemoryService)

Embedding of src/src/services/conversation-memory.service.ts.  The chat
model call used for summarization is abstracted as a `summarizer`
function returning `Except` (the thrown provider error or the completion
text); the Prisma message query is abstracted as the ordered message
list.  Summary caching is disabled in the source (getCachedSummary
always returns null), so it does not appear. -/

/-- Message role as stored in the database (Role enum USER/ASSISTANT). -/
inductive MsgRole
  | user
  | assistant
deriving DecidableEq

/-- A conversation message: role, content, creation time. -/
structure Msg where
  role : MsgRole
  content : String
  createdAt : Nat
deriving DecidableEq

/-- MemoryConfig of ConversationMemoryService. -/
structure MemoryConfig where
  maxTokens : Nat
  maxMessages : Nat
  summaryThreshold : Nat
  entityThreshold : Nat
deriving DecidableEq

/-- The defaults parsed from the environment: MEMORY_MAX_TOKENS 1500,
MEMORY_MAX_MESSAGES 20, MEMORY_SUMMARY_THRESHOLD 10,
MEMORY_ENTITY_THRESHOLD 2. -/
def defaultMemoryConfig : MemoryConfig :=
  { maxTokens := 1500, maxMessages := 20, summaryThreshold := 10, entityThreshold := 2 }

/-- ConversationMemoryService.estimateTokens: Math.ceil(text.length / 4). -/
def estimateTokens (text : String) : Nat := (text.length + 3) / 4

/-- Total estimated tokens of a message list (the reduce over
estimatedTokens in getConversationMemory). -/
def totalEstimatedTokens (msgs : List Msg) : Nat :=
  (msgs.map (fun m => estimateTokens m.content)).sum

/-- The selection loop shared by createBufferMemory and
createHybridMemory: walk the messages from most recent to oldest
(`rev` is the message list reversed), unshifting each message that still
fits, and break at the first message that would push the running
`tokenCount` above `maxTokens`.  Returns the selected messages in
chronological order together with the final token count. -/
def takeRecentAux (maxTokens : Nat) : List Msg → Nat → List Msg × Nat
  | [], tc => ([], tc)
  | m :: rest, tc =>
    if maxTokens < tc + estimateTokens m.content then ([], tc)
    else
      let r := takeRecentAux maxTokens rest (tc + estimateTokens m.content)
      (r.1 ++ [m], r.2)

/-- JavaScript regex class `\w` = [A-Za-z0-9_]. -/
def isJsWordChar (c : Char) : Bool :=
  ('a' ≤ c && c ≤ 'z') || ('A' ≤ c && c ≤ 'Z') || ('0' ≤ c && c ≤ '9') || c = '_'

/-- JavaScript regex class `\s` restricted to the ASCII whitespace
characters relevant here. -/
def isJsSpace (c : Char) : Bool :=
  c = ' ' || c = '\t' || c = '\n' || c = '\r'

/-- One character of `replace(/[^\w\s]/g, ' ')`. -/
def sanitizeChar (c : Char) : Char :=
  if isJsWordChar c || isJsSpace c then c else ' '

/-- Splitting on whitespace runs (`split(/\s+/)`); `cur` accumulates the
current word reversed.  Empty fragments are dropped — the source filters
all words of length ≤ 3 right after, so this agrees with JavaScript
split, which can produce one leading empty fragment. -/
def splitWordsAux : List Char → List Char → List (List Char)
  | [], cur => if cur.isEmpty then [] else [cur.reverse]
  | c :: cs, cur =>
    if isJsSpace c then
      if cur.isEmpty then splitWordsAux cs [] else cur.reverse :: splitWordsAux cs []
    else splitWordsAux cs (c :: cur)

/-- The word pipeline of extractEntities:
`allText.toLowerCase().replace(/[^\w\s]/g, ' ').split(/\s+/)`. -/
def extractWords (text : String) : List (List Char) :=
  splitWordsAux ((text.data.map jsToLower).map sanitizeChar) []

/-- One step of building the frequency map: JavaScript Map preserves
insertion order, so the map is a list of (word, count) pairs ordered by
first occurrence. -/
def bumpWord (acc : List (List Char × Nat)) (w : List Char) : List (List Char × Nat) :=
  match acc with
  | [] => [(w, 1)]
  | (x, n) :: rest => if x = w then (x, n + 1) :: rest else (x, n) :: bumpWord rest w

/-- The wordFreq Map of extractEntities, in insertion order. -/
def wordFreq (ws : List (List Char)) : List (List Char × Nat) :=
  ws.foldl bumpWord []

/-- Stop-word list of isLikelyEntity. -/
def commonWords : List (List Char) :=
  ["the", "and", "or", "but", "in", "on", "at", "to", "for", "of", "with", "by",
   "que", "para", "como", "uma", "dos", "das", "por", "com", "sobre", "este",
   "esta"].map String.data

/-- Regex class `\d`. -/
def isDigitChar (c : Char) : Bool := '0' ≤ c && c ≤ '9'

/-- ConversationMemoryService.isLikelyEntity: not a stop word, longer
than 3 characters, not purely numeric (`/^\d+$/`). -/
def isLikelyEntity (w : List Char) : Bool :=
  !(commonWords.contains w) && w.length > 3 && !(!w.isEmpty && w.all isDigitChar)

/-- EntityInfo.type values. -/
inductive EntityType
  | document
  | concept
  | topic
deriving DecidableEq

/-- String label of an entity type, as interpolated into the entity
system note. -/
def typeLabel : EntityType → String
  | .document => "document"
  | .concept => "concept"
  | .topic => "topic"

/-- JavaScript String.prototype.includes on character lists: some tail
of the haystack starts with the pattern. -/
def jsIncludes (pat : List Char) : List Char → Bool
  | [] => pat.isEmpty
  | c :: cs => pat.isPrefixOf (c :: cs) || jsIncludes pat cs

/-- ConversationMemoryService.classifyEntity. -/
def classifyEntity (w : List Char) : EntityType :=
  if jsIncludes "doc".data w || jsIncludes "pdf".data w || jsIncludes "arquivo".data w then
    .document
  else if "ção".data.isSuffixOf w || "mento".data.isSuffixOf w ||
      jsIncludes "conceito".data w then
    .concept
  else .topic

/-- EntityInfo restricted to the fields the formatter reads (the source
also records lastMentioned and a context snippet around the first
mention, neither of which is read by formatMemoryForAI). -/
structure EntityInfo where
  name : String
  type : EntityType
  mentions : Nat
deriving DecidableEq

/-- JavaScript Array.prototype.join with a separator. -/
def joinSep (sep : String) : List String → String
  | [] => ""
  | [a] => a
  | a :: b :: rest => a ++ sep ++ joinSep sep (b :: rest)

/-- ConversationMemoryService.extractEntities: join all message contents
with spaces, lowercase, strip punctuation, split on whitespace, keep
words longer than 3 characters, count frequencies in first-occurrence
order, and keep the words with frequency ≥ entityThreshold that pass
isLikelyEntity. -/
def extractEntities (cfg : MemoryConfig) (msgs : List Msg) : List EntityInfo :=
  let allText := joinSep " " (msgs.map (fun m => m.content))
  let words := (extractWords allText).filter (fun w => w.length > 3)
  ((wordFreq words).filter
      (fun p => cfg.entityThreshold ≤ p.2 && isLikelyEntity p.1)).map
    (fun p => ⟨String.mk p.1, classifyEntity p.1, p.2⟩)

/-- ConversationMemory.memoryType values. -/
inductive MemoryType
  | buffer
  | summary
  | hybrid
deriving DecidableEq

/-- ConversationMemory as returned by the service. -/
structure ConversationMemory where
  recentMessages : List Msg
  summary : Option String
  entities : List EntityInfo
  tokenCount : Nat
  memoryType : MemoryType
deriving DecidableEq

/-- The hard-coded fallback text returned by
generateConversationSummary when the chat model call throws. -/
def fallbackSummary : String :=
  "Previous conversation covered various topics related to the course materials."

/-- ConversationMemoryService.generateConversationSummary: the cache is
disabled in the source, so the summary is the chat completion on the
older messages, or the fixed fallback text when that call fails. -/
def generateConversationSummary (summarizer : List Msg → Except String String)
    (msgs : List Msg) : String :=
  match summarizer msgs with
  | .ok s => s
  | .error _ => fallbackSummary

/-- ConversationMemoryService.createBufferMemory. -/
def createBufferMemory (cfg : MemoryConfig) (msgs : List Msg) : ConversationMemory :=
  let sel := takeRecentAux cfg.maxTokens msgs.reverse 0
  { recentMessages := sel.1
    summary := none
    entities := extractEntities cfg sel.1
    tokenCount := sel.2
    memoryType := .buffer }

/-- ConversationMemoryService.createHybridMemory: split at
`max(0, length - maxMessages)`, summarize the older part when nonempty,
then fill the budget with the most recent messages starting from the
summary's token count.  Entities are extracted from all messages. -/
def createHybridMemory (cfg : MemoryConfig)
    (summarizer : List Msg → Except String String) (msgs : List Msg) :
    ConversationMemory :=
  let splitPoint := msgs.length - cfg.maxMessages
  let older := msgs.take splitPoint
  let recent := msgs.drop splitPoint
  let summ : Option String :=
    if 0 < older.length then some (generateConversationSummary summarizer older)
    else none
  let summaryTokens := (summ.map estimateTokens).getD 0
  let sel := takeRecentAux cfg.maxTokens recent.reverse summaryTokens
  { recentMessages := sel.1
    summary := summ
    entities := extractEntities cfg msgs
    tokenCount := sel.2
    memoryType := .hybrid }

/-- ConversationMemoryService.getConversationMemory: empty conversations
yield empty buffer memory; short, small conversations yield buffer
memory; everything else yields hybrid memory. -/
def getConversationMemory (cfg : MemoryConfig)
    (summarizer : List Msg → Except String String) (msgs : List Msg) :
    ConversationMemory :=
  if msgs.length = 0 then
    { recentMessages := [], summary := none, entities := [], tokenCount := 0
      memoryType := .buffer }
  else if msgs.length ≤ cfg.summaryThreshold ∧ totalEstimatedTokens msgs ≤ cfg.maxTokens then
    createBufferMemory cfg msgs
  else
    createHybridMemory cfg summarizer msgs

/-- Chat completion message roles. -/
inductive ChatRole
  | system
  | user
  | assistant
deriving DecidableEq

/-- A chat completion message. -/
structure ChatMsg where
  role : ChatRole
  content : String
deriving DecidableEq

/-- One entry of the entity system note:
`name (type, mentioned N times)`. -/
def entityEntry (e : EntityInfo) : String :=
  e.name ++ " (" ++ typeLabel e.type ++ ", mentioned " ++ toString e.mentions ++ " times)"

/-- The optional leading summary system note of formatMemoryForAI. -/
def summaryNote (memory : ConversationMemory) : List ChatMsg :=
  match memory.summary with
  | some s => [⟨.system, "Previous conversation summary: " ++ s⟩]
  | none => []

/-- The entities that pass the `mentions >= entityThreshold` filter of
formatMemoryForAI, in stored (first-occurrence) order. -/
def qualifyingEntities (cfg : MemoryConfig) (memory : ConversationMemory) :
    List EntityInfo :=
  memory.entities.filter (fun e => cfg.entityThreshold ≤ e.mentions)

/-- The trailing recent messages of formatMemoryForAI, with roles mapped
USER→user, ASSISTANT→assistant. -/
def recentChat (memory : ConversationMemory) : List ChatMsg :=
  memory.recentMessages.map (fun m =>
    ⟨match m.role with
      | .user => ChatRole.user
      | .assistant => ChatRole.assistant, m.content⟩)

/-- ConversationMemoryService.formatMemoryForAI: optional summary note,
then — when entities exist and the joined entity text is nonempty — one
entity note built from the filtered entities mapped to entries and
sliced to the first five, then the recent messages. -/
def formatMemoryForAI (cfg : MemoryConfig) (memory : ConversationMemory) :
    List ChatMsg :=
  summaryNote memory ++
    (if 0 < memory.entities.length then
      let entityContext :=
        joinSep ", " (((qualifyingEntities cfg memory).map entityEntry).take 5)
      if entityContext ≠ "" then
        [⟨.system, "Key topics in this conversation: " ++ entityContext⟩]
      else []
    else []) ++
    recentChat memory

/-- Total estimated tokens of a formatted chat message list, each
message estimated at ceil(length/4). -/
def totalChatTokens (l : List ChatMsg) : Nat :=
  (l.map (fun m => estimateTokens m.content)).sum

/-- A 6000-character chat-model summary (the source puts no bound on the
summary text the model returns; the prompt only asks for under 200
words). -/
def hugeSummary : String := String.mk (List.replicate 6000 'a')

/-- A two-character message. -/
def tinyMsg : Msg := ⟨.user, "hi", 0⟩

/-- The selection loop never pushes the running token count above the
budget once it is within the budget. -/
lemma takeRecentAux_le (maxT : Nat) :
    ∀ (l : List Msg) (tc : Nat), tc ≤ maxT → (takeRecentAux maxT l tc).2 ≤ maxT := by
  intro l
  induction l with
  | nil => intro tc h; simpa [takeRecentAux] using h
  | cons m rest ih =>
    intro tc h
    by_cases hc : maxT < tc + estimateTokens m.content
    · simpa [takeRecentAux, hc] using h
    · have := ih (tc + estimateTokens m.content) (Nat.le_of_not_lt hc)
      simpa [takeRecentAux, hc] using this

/-- C1 (counterexample): the full formatted message list can exceed
max_tokens (default 1500).  With 21 two-character messages and a
summarizer whose completion has 6000 characters (1500 estimated tokens),
hybrid memory selects no recent messages and reports tokenCount 1500,
but the emitted summary system note carries the uncounted 31-character
prefix "Previous conversation summary: ", so the formatted list holds
1508 estimated tokens. -/
theorem C1_counterexample :
    ¬ totalChatTokens (formatMemoryForAI defaultMemoryConfig
        (getConversationMemory defaultMemoryConfig (fun _ => Except.ok hugeSummary)
          (List.replicate 21 tinyMsg))) ≤ defaultMemoryConfig.maxTokens := by
  have hlen : hugeSummary.length = 6000 := by
    show (List.replicate 6000 'a').length = 6000
    rw [List.length_replicate]
  have hEst : estimateTokens hugeSummary = 1500 := by
    rw [estimateTokens, hlen]
  have hplen : ("Previous conversation summary: " ++ hugeSummary).length = 6031 := by
    rw [String.length_append, hlen]
    decide
  have hPfxEst : estimateTokens ("Previous conversation summary: " ++ hugeSummary) = 1508 := by
    rw [estimateTokens, hplen]
  have hEstHi : estimateTokens "hi" = 1 := by decide
  have hMem : getConversationMemory defaultMemoryConfig (fun _ => Except.ok hugeSummary)
      (List.replicate 21 tinyMsg) =
      { recentMessages := [], summary := some hugeSummary, entities := [],
        tokenCount := 1500, memoryType := .hybrid } := by
    rw [getConversationMemory]
    rw [if_neg (by simp), if_neg (by simp [totalEstimatedTokens, defaultMemoryConfig])]
    rw [createHybridMemory]
    simp [defaultMemoryConfig, generateConversationSummary, hEst,
      List.take_replicate, List.drop_replicate, List.reverse_replicate, Nat.min_def]
    refine ⟨?_, ?_, ?_⟩
    · simp [takeRecentAux, tinyMsg, hEstHi]
    · decide
    · simp [takeRecentAux, tinyMsg, hEstHi]
  rw [hMem]
  simp [formatMemoryForAI, summaryNote, qualifyingEntities, recentChat, totalChatTokens,
    hPfxEst, defaultMemoryConfig]

/-- C1 (amended): for every conversation and configuration, the memory
manager's own token count — the summary text plus the selected recent
messages, each estimated at ceil(length/4) tokens — is at most
max_tokens, provided every generated summary itself fits the budget, in
both buffer and hybrid modes.  The formatted message list may still
exceed max_tokens, because the "Previous conversation summary: " prefix
and the entity system note are not counted (see the counterexample). -/
theorem C1_amended_tokenCount_bounded (cfg : MemoryConfig)
    (summarizer : List Msg → Except String String) (msgs : List Msg)
    (h : ∀ ms, estimateTokens (generateConversationSummary summarizer ms) ≤ cfg.maxTokens) :
    (getConversationMemory cfg summarizer msgs).tokenCount ≤ cfg.maxTokens := by
  rw [getConversationMemory]
  split
  · exact Nat.zero_le _
  · split
    · simp only [createBufferMemory]
      exact takeRecentAux_le _ _ _ (Nat.zero_le _)
    · simp only [createHybridMemory]
      apply takeRecentAux_le
      split
      · simpa using h _
      · simp

/-- Witness for C1: a concrete conversation on which the bound is
realized (the failing summarizer always yields the short fallback
text). -/
theorem C1_witness :
    (getConversationMemory defaultMemoryConfig (fun _ => Except.error "boom")
        [⟨.user, "hi", 0⟩]).tokenCount ≤ defaultMemoryConfig.maxTokens :=
  C1_amended_tokenCount_bounded _ _ _
    (fun ms => by
      have hfb : generateConversationSummary (fun _ => Except.error "boom") ms =
          fallbackSummary := rfl
      rw [hfb]; decide)

/-- C3 (counterexample): when summarization fails on a 21-message
conversation, the memory manager does NOT return buffer memory — it
returns hybrid memory whose summary is the hard-coded fallback text
(generateConversationSummary swallows the error before
createHybridMemory's buffer fallback could trigger). -/
theorem C3_counterexample :
    (getConversationMemory defaultMemoryConfig (fun _ => Except.error "chat model unavailable")
        (List.replicate 21 ⟨.user, "hello", 0⟩)).memoryType ≠ MemoryType.buffer ∧
      (getConversationMemory defaultMemoryConfig (fun _ => Except.error "chat model unavailable")
        (List.replicate 21 ⟨.user, "hello", 0⟩)).summary = some fallbackSummary := by
  decide

/-- C3 (amended): for every conversation in hybrid mode with a nonempty
summary pool, if the chat-model summarization fails then the memory
manager still returns normally (the request succeeds), but with hybrid
memory whose summary is the fixed fallback text "Previous conversation
covered various topics related to the course materials.", not with
buffer memory. -/
theorem C3_amended_hybrid_fallback (cfg : MemoryConfig) (msgs : List Msg) (err : String)
    (hsel : ¬(msgs.length ≤ cfg.summaryThreshold ∧ totalEstimatedTokens msgs ≤ cfg.maxTokens))
    (hlen : cfg.maxMessages < msgs.length) :
    (getConversationMemory cfg (fun _ => Except.error err) msgs).memoryType = MemoryType.hybrid ∧
      (getConversationMemory cfg (fun _ => Except.error err) msgs).summary = some fallbackSummary := by
  have h0 : ¬ msgs.length = 0 := by omega
  rw [getConversationMemory, if_neg h0, if_neg hsel]
  constructor
  · rfl
  · show (if 0 < (msgs.take (msgs.length - cfg.maxMessages)).length then
        some (generateConversationSummary (fun _ => Except.error err)
          (msgs.take (msgs.length - cfg.maxMessages)))
      else none) = some fallbackSummary
    have hpos : 0 < (msgs.take (msgs.length - cfg.maxMessages)).length := by
      rw [List.length_take]
      omega
    rw [if_pos hpos]
    rfl

/-- Witness for C3: a concrete 23-message conversation with a failing
summarizer. -/
theorem C3_witness :
    (getConversationMemory defaultMemoryConfig (fun _ => Except.error "provider outage")
        (List.replicate 23 ⟨.user, "hey", 1⟩)).memoryType = MemoryType.hybrid ∧
      (getConversationMemory defaultMemoryConfig (fun _ => Except.error "provider outage")
        (List.replicate 23 ⟨.user, "hey", 1⟩)).summary = some fallbackSummary :=
  C3_amended_hybrid_fallback defaultMemoryConfig (List.replicate 23 ⟨.user, "hey", 1⟩)
    "provider outage" (by decide) (by decide)

/-- A string of length zero is the empty string. -/
lemma eq_empty_of_length_eq_zero {s : String} (h : s.length = 0) : s = "" := by
  cases s with
  | mk data =>
    have hd : data = [] := List.length_eq_zero.mp h
    subst hd
    rfl

/-- An entity note entry is never the empty string (it always carries
its literal punctuation). -/
lemma entityEntry_ne_empty (e : EntityInfo) : entityEntry e ≠ "" := by
  intro heq
  have hlen := congrArg String.length heq
  simp only [entityEntry, String.length_append,
    show (" times)" : String).length = 7 from rfl,
    show ("" : String).length = 0 from rfl] at hlen
  omega

/-- Joining a list whose first element is nonempty yields a nonempty
string. -/
lemma joinSep_cons_ne_empty (sep x : String) (xs : List String) (hx : x ≠ "") :
    joinSep sep (x :: xs) ≠ "" := by
  cases xs with
  | nil => simpa [joinSep] using hx
  | cons y t =>
    intro h
    have hlen := congrArg String.length h
    simp [joinSep, String.length_append] at hlen
    have hxlen : x.length ≠ 0 := fun h0 => hx (eq_empty_of_length_eq_zero h0)
    omega

/-- C8 (amended): for every conversation with at least one qualifying
entity (mention frequency ≥ entity_threshold), the memory manager emits
exactly one "Key topics in this conversation: …" system note, and the
entities it lists are the FIRST five qualifying entities in
first-occurrence (map insertion) order — not the top five by mention
count (see the counterexample). -/
theorem C8_amended_entity_note (cfg : MemoryConfig)
    (summarizer : List Msg → Except String String) (msgs : List Msg)
    (h : qualifyingEntities cfg (getConversationMemory cfg summarizer msgs) ≠ []) :
    formatMemoryForAI cfg (getConversationMemory cfg summarizer msgs) =
      summaryNote (getConversationMemory cfg summarizer msgs) ++
        [⟨ChatRole.system, "Key topics in this conversation: " ++
            joinSep ", " (((qualifyingEntities cfg
              (getConversationMemory cfg summarizer msgs)).take 5).map entityEntry)⟩] ++
        recentChat (getConversationMemory cfg summarizer msgs) ∧
      ((qualifyingEntities cfg (getConversationMemory cfg summarizer msgs)).take 5).length ≤ 5 := by
  set memory := getConversationMemory cfg summarizer msgs with hmdef
  have hne : memory.entities ≠ [] := by
    intro hnil
    exact h (by simp [qualifyingEntities, hnil])
  have hent : 0 < memory.entities.length := List.length_pos.mpr hne
  obtain ⟨q, qs, hq⟩ := List.exists_cons_of_ne_nil h
  have hctx : joinSep ", " (((qualifyingEntities cfg memory).map entityEntry).take 5) ≠ "" := by
    rw [hq, List.map_cons, List.take_succ_cons]
    exact joinSep_cons_ne_empty _ _ _ (entityEntry_ne_empty q)
  constructor
  · rw [formatMemoryForAI, if_pos hent, if_pos hctx, List.map_take]
  · exact List.length_take_le _ _

/-- Witness for C8: a one-message conversation with one qualifying
entity ("kernel", mentioned twice). -/
theorem C8_witness :
    formatMemoryForAI defaultMemoryConfig (getConversationMemory defaultMemoryConfig
        (fun _ => Except.ok "") [⟨.user, "kernel kernel", 0⟩]) =
      summaryNote (getConversationMemory defaultMemoryConfig
          (fun _ => Except.ok "") [⟨.user, "kernel kernel", 0⟩]) ++
        [⟨ChatRole.system, "Key topics in this conversation: " ++
            joinSep ", " (((qualifyingEntities defaultMemoryConfig
              (getConversationMemory defaultMemoryConfig (fun _ => Except.ok "")
                [⟨.user, "kernel kernel", 0⟩])).take 5).map entityEntry)⟩] ++
        recentChat (getConversationMemory defaultMemoryConfig
          (fun _ => Except.ok "") [⟨.user, "kernel kernel", 0⟩]) ∧
      ((qualifyingEntities defaultMemoryConfig (getConversationMemory defaultMemoryConfig
          (fun _ => Except.ok "") [⟨.user, "kernel kernel", 0⟩])).take 5).length ≤ 5 :=
  C8_amended_entity_note defaultMemoryConfig (fun _ => Except.ok "")
    [⟨.user, "kernel kernel", 0⟩] (by decide)

/-- C8 (counterexample): listed entities are not the top five by mention
count.  In a conversation whose sixth qualifying entity "zebra" has five
mentions while the first five qualifying entities have two each, the
note lists the first five in first-occurrence order and omits "zebra",
even though "zebra" strictly dominates every listed entity. -/
theorem C8_counterexample :
    ((qualifyingEntities defaultMemoryConfig (getConversationMemory defaultMemoryConfig
        (fun _ => Except.ok "")
        [⟨.user, "alpha alpha beta1 beta1 gamma gamma delta delta epsil epsil zebra zebra zebra zebra zebra", 0⟩])).take 5).map
      (fun e => e.name) = ["alpha", "beta1", "gamma", "delta", "epsil"] ∧
    ∃ e ∈ (getConversationMemory defaultMemoryConfig (fun _ => Except.ok "")
        [⟨.user, "alpha alpha beta1 beta1 gamma gamma delta delta epsil epsil zebra zebra zebra zebra zebra", 0⟩]).entities,
      defaultMemoryConfig.entityThreshold ≤ e.mentions ∧ e.name = "zebra" ∧
      ∀ l ∈ (qualifyingEntities defaultMemoryConfig (getConversationMemory defaultMemoryConfig
          (fun _ => Except.ok "")
          [⟨.user, "alpha alpha beta1 beta1 gamma gamma delta delta epsil epsil zebra zebra zebra zebra zebra", 0⟩])).take 5,
        l.mentions < e.mentions := by
  decide

/-! ## Vector store gateway (QdrantService) and call sites

Embedding of QdrantService.searchSimilarChunks
(src/src/services/qdrant.service.ts, lines 145-150) together with the
two call sites the claims compare: RAGService.queryDocuments and
GeneratedFilesService.gatherProjectContext (src/unnamed/part_004, lines
941-945).  Similarity scores are IEEE doubles in the source; they are
modelled as rationals, on which the thresholds 0.4 and 0.7 and their
comparisons are exact. -/

/-- The payload stored with each point, as read back by a search. -/
structure ChunkPayload where
  documentId : String
  projectId : String
  content : String
  chunkIndex : Nat
  filename : String
deriving DecidableEq

/-- A point of a project collection, paired with its cosine-similarity
score against the current query embedding. -/
structure ScoredPoint where
  id : String
  score : ℚ
  chunk : ChunkPayload
deriving DecidableEq

/-- QdrantService.searchSimilarChunks with its source default parameters
`limit = 5` and `scoreThreshold = 0.7`.  The external Qdrant server's
query semantics follow the spec's vector-store contract (§4.4): return
up to `limit` matches with score ≥ threshold, sorted by descending
score. -/
def searchSimilarChunks (points : List ScoredPoint) (limit : Nat := 5)
    (scoreThreshold : ℚ := 7/10) : List ScoredPoint :=
  ((points.filter (fun p => scoreThreshold ≤ p.score)).mergeSort
      (fun a b => decide (b.score ≤ a.score))).take limit

/-- RAGService configuration read in the constructor. -/
structure RagConfig where
  chunkSize : Nat
  chunkOverlap : Nat
  maxChunks : Nat
  similarityThreshold : ℚ
deriving DecidableEq

/-- The environment defaults: RAG_CHUNK_SIZE 1000, RAG_CHUNK_OVERLAP
200, RAG_MAX_CHUNKS 5, RAG_SIMILARITY_THRESHOLD 0.4. -/
def defaultRagConfig : RagConfig :=
  { chunkSize := 1000, chunkOverlap := 200, maxChunks := 5, similarityThreshold := 2/5 }

/-- GeneratedFilesService.gatherProjectContext's search call: it passes
the collection, the query embedding and `5` (top five chunks) only, so
the gateway's default scoreThreshold 0.7 applies. -/
def gatherProjectContextSearch (points : List ScoredPoint) : List ScoredPoint :=
  searchSimilarChunks points 5

/-- RAGService.queryDocuments' search call: limit = maxChunks and
threshold = similarityThreshold from the service configuration. -/
def ragQuerySearch (cfg : RagConfig) (points : List ScoredPoint) : List ScoredPoint :=
  searchSimilarChunks points cfg.maxChunks cfg.similarityThreshold

/-- C10: with the default configurations, a chunk whose similarity score
lies in [0.4, 0.7) is returned to RAG queries (threshold 0.4) but
excluded from file-generation context, which inherits the gateway's
default threshold 0.7.  (The membership half assumes the collection has
at most five points, so the limit cannot crowd the chunk out.) -/
theorem C10_threshold_gap (points : List ScoredPoint) (c : ScoredPoint)
    (hmem : c ∈ points) (hlo : 2/5 ≤ c.score) (hhi : c.score < 7/10)
    (hsmall : points.length ≤ 5) :
    c ∈ ragQuerySearch defaultRagConfig points ∧
      c ∉ gatherProjectContextSearch points := by
  have hmc : defaultRagConfig.maxChunks = 5 := rfl
  have hst : defaultRagConfig.similarityThreshold = 2/5 := rfl
  constructor
  · have hf : c ∈ points.filter (fun p => (2:ℚ)/5 ≤ p.score) :=
      List.mem_filter.mpr ⟨hmem, decide_eq_true hlo⟩
    have hlen : ((points.filter (fun p => (2:ℚ)/5 ≤ p.score)).mergeSort
        (fun a b => decide (b.score ≤ a.score))).length ≤ 5 := by
      rw [List.length_mergeSort]
      exact le_trans (List.length_filter_le _ _) hsmall
    have hm : c ∈ (points.filter (fun p => (2:ℚ)/5 ≤ p.score)).mergeSort
        (fun a b => decide (b.score ≤ a.score)) :=
      (List.mergeSort_perm _ _).mem_iff.mpr hf
    rw [ragQuerySearch, hmc, hst, searchSimilarChunks, List.take_of_length_le hlen]
    exact hm
  · intro hc
    rw [gatherProjectContextSearch, searchSimilarChunks] at hc
    have hm := List.mem_of_mem_take hc
    have hf := (List.mergeSort_perm _ _).mem_iff.mp hm
    have := (List.mem_filter.mp hf).2
    rw [decide_eq_true_eq] at this
    exact absurd (lt_of_lt_of_le hhi this) (lt_irrefl _)

/-- Witness for C10: a one-point collection whose point scores 0.5. -/
theorem C10_witness :
    (⟨"pt1", 1/2, ⟨"d1", "p1", "chunk text", 0, "f.txt"⟩⟩ : ScoredPoint) ∈
        ragQuerySearch defaultRagConfig [⟨"pt1", 1/2, ⟨"d1", "p1", "chunk text", 0, "f.txt"⟩⟩] ∧
      (⟨"pt1", 1/2, ⟨"d1", "p1", "chunk text", 0, "f.txt"⟩⟩ : ScoredPoint) ∉
        gatherProjectContextSearch [⟨"pt1", 1/2, ⟨"d1", "p1", "chunk text", 0, "f.txt"⟩⟩] :=
  C10_threshold_gap _ _ (by simp) (by norm_num) (by norm_num) (by simp)

/-! ## RAG query engine (RAGService.queryDocuments)

Embedding of the stateless query path
(src/src/services/rag.service.ts, lines 414-500).  The project lookup is
the `project` argument, the query embedding and the vector store are
folded into the per-point scores of `points`, and the chat model is the
`chat` argument.  The boolean in the result records whether the chat
model was invoked. -/

/-- The project row fields the query engine reads. -/
structure ProjectRec where
  qdrantCollectionId : Option String
deriving DecidableEq

/-- Token usage reported by a chat completion. -/
structure TokensUsed where
  prompt : Nat
  completion : Nat
  total : Nat
deriving DecidableEq

/-- One source attribution of a query result. -/
structure QuerySource where
  documentId : String
  filename : String
  content : String
  score : ℚ
  chunkIndex : Nat
deriving DecidableEq

/-- QueryResult of RAGService. -/
structure QueryResult where
  answer : String
  sources : List QuerySource
  tokensUsed : TokensUsed
deriving DecidableEq

/-- The fixed Portuguese no-results answer. -/
def noRelevantInfoMsg : String :=
  "Desculpe, não encontrei informações relevantes nos documentos para responder sua pergunta."

/-- The 200-character content preview of a source
(`content.substring(0, 200) + "..."`). -/
def contentPreview (s : String) : String := String.mk (s.data.take 200) ++ "..."

/-- RAGService.queryDocuments: fail when the project is missing or has
no collection (the catch block re-wraps the thrown message with "Query
failed: "); search; on zero results return the fixed answer with empty
sources and zero token usage without calling the chat model; otherwise
call the chat model on the retrieved context and attribute sources. -/
def queryDocuments (cfg : RagConfig) (project : Option ProjectRec)
    (points : List ScoredPoint) (chat : List ChatMsg → List String → String × TokensUsed)
    (query : String) : Except String (QueryResult × Bool) :=
  match project with
  | none => .error "Query failed: Project not found or no documents processed"
  | some p =>
    match p.qdrantCollectionId with
    | none => .error "Query failed: Project not found or no documents processed"
    | some _ =>
      let searchResults := searchSimilarChunks points cfg.maxChunks cfg.similarityThreshold
      if searchResults.length = 0 then
        .ok ({ answer := noRelevantInfoMsg, sources := [],
               tokensUsed := { prompt := 0, completion := 0, total := 0 } }, false)
      else
        let contextDocuments := searchResults.map (fun r => r.chunk.content)
        let aiResponse := chat [⟨.user, query⟩] contextDocuments
        .ok ({ answer := aiResponse.1,
               sources := searchResults.map (fun r =>
                 { documentId := r.chunk.documentId
                   filename := r.chunk.filename
                   content := contentPreview r.chunk.content
                   score := r.score
                   chunkIndex := r.chunk.chunkIndex })
               tokensUsed := aiResponse.2 }, true)

/-- C5: for every stateless query on an indexed project whose vector
search returns zero results, the engine returns the fixed Portuguese
"no relevant information found" answer, an empty source list, and
exactly zero prompt/completion/total tokens, without invoking the chat
model. -/
theorem C5_no_results_fixed_answer (cfg : RagConfig) (p : ProjectRec)
    (points : List ScoredPoint) (chat : List ChatMsg → List String → String × TokensUsed)
    (query : String) (hcoll : p.qdrantCollectionId.isSome)
    (hempty : searchSimilarChunks points cfg.maxChunks cfg.similarityThreshold = []) :
    queryDocuments cfg (some p) points chat query =
      .ok ({ answer := noRelevantInfoMsg, sources := [],
             tokensUsed := { prompt := 0, completion := 0, total := 0 } }, false) := by
  obtain ⟨coll, hc⟩ := Option.isSome_iff_exists.mp hcoll
  rw [queryDocuments, hc]
  simp [hempty]

/-- Witness for C5: an indexed project with an empty collection. -/
theorem C5_witness :
    queryDocuments defaultRagConfig (some ⟨some "project_p1"⟩) []
        (fun _ _ => ("resposta", { prompt := 3, completion := 4, total := 7 }))
        "quantum cryptography" =
      .ok ({ answer := noRelevantInfoMsg, sources := [],
             tokensUsed := { prompt := 0, completion := 0, total := 0 } }, false) :=
  C5_no_results_fixed_answer defaultRagConfig ⟨some "project_p1"⟩ []
    (fun _ _ => ("resposta", { prompt := 3, completion := 4, total := 7 }))
    "quantum cryptography" rfl (by simp [searchSimilarChunks])

/-! ## Ingestion coordinator (RAGService.processDocument / reprocessDocument)

Embedding of src/src/services/rag.service.ts, lines 122-332, as a state
machine over the document row, its project row, and the document's
points in the vector store.  External collaborators are parameters:
`loader` stands for `S3Service.getFileContent` followed by
`LangChainDocumentProcessor.processDocument` (raw storage key → extracted
text), `splitter` for `LangChainDocumentProcessor.splitText`, `embedder`
for `openaiService.generateEmbeddings`, and `now` for `new Date()`.
`processingTime` (wall-clock) is outside the embedding.  The effects
record tracks which collaborators an operation invoked. -/

/-- The document row fields processDocument reads and writes
(textContent is the extracted_text blob, processedAt the processed
timestamp). -/
structure DocumentRec where
  id : String
  projectId : String
  filename : String
  textContent : Option String
  processedAt : Option Nat
  s3Key : String
deriving DecidableEq

/-- The persistent state processDocument touches: the document row, its
project row, and the document's chunk texts stored in the project's
vector collection. -/
structure RagState where
  doc : DocumentRec
  project : ProjectRec
  storedChunks : List String
deriving DecidableEq

/-- The external collaborators of the ingestion pipeline. -/
structure IngestDeps where
  loader : String → String
  splitter : String → List String
  embedder : List String → List (List ℚ)
  now : Nat

/-- ProcessDocumentResult of RAGService. -/
structure ProcessDocumentResult where
  documentId : String
  chunksProcessed : Nat
  collectionName : String
  success : Bool
  error : Option String
deriving DecidableEq

/-- Which external collaborators an operation invoked. -/
structure IngestEffects where
  loaderInvoked : Bool
  splitterInvoked : Bool
  embedderInvoked : Bool
  upsertInvoked : Bool
  deleteInvoked : Bool
deriving DecidableEq

/-- No collaborator invoked. -/
def noEffects : IngestEffects :=
  { loaderInvoked := false, splitterInvoked := false, embedderInvoked := false,
    upsertInvoked := false, deleteInvoked := false }

/-- RAGService.processDocument: early-return success when processedAt is
already set; extract text only when textContent is missing (persisting
it); create the collection lazily; split, embed, upsert (fresh point
ids, so chunk texts append), and set processedAt.  The zero-chunks and
chunk/embedding count-mismatch throws are caught by the surrounding
try/catch, which returns a failure result and keeps the state mutations
made before the throw. -/
def processDocument (deps : IngestDeps) (st : RagState) :
    RagState × ProcessDocumentResult × IngestEffects :=
  if st.doc.processedAt.isSome then
    (st, { documentId := st.doc.id, chunksProcessed := 0,
           collectionName := st.project.qdrantCollectionId.getD "",
           success := true, error := some "Document already processed" }, noEffects)
  else
    let ext : String × RagState × Bool :=
      match st.doc.textContent with
      | some t => (t, st, false)
      | none =>
        let t := deps.loader st.doc.s3Key
        (t, { st with doc := { st.doc with textContent := some t } }, true)
    let textContent := ext.1
    let st1 := ext.2.1
    let loaderUsed := ext.2.2
    let coll : String × RagState :=
      match st1.project.qdrantCollectionId with
      | some c => (c, st1)
      | none =>
        let c := "project_" ++ st1.doc.projectId
        (c, { st1 with project := { qdrantCollectionId := some c } })
    let collectionName := coll.1
    let st2 := coll.2
    let textChunks := deps.splitter textContent
    if textChunks.length = 0 then
      (st2, { documentId := st.doc.id, chunksProcessed := 0, collectionName := "",
              success := false,
              error := some "No text chunks could be created from document" },
       { loaderInvoked := loaderUsed, splitterInvoked := true, embedderInvoked := false,
         upsertInvoked := false, deleteInvoked := false })
    else
      let embeddings := deps.embedder textChunks
      if textChunks.length ≠ embeddings.length then
        (st2, { documentId := st.doc.id, chunksProcessed := 0, collectionName := "",
                success := false,
                error := some "Number of chunks must match number of embeddings" },
         { loaderInvoked := loaderUsed, splitterInvoked := true, embedderInvoked := true,
           upsertInvoked := false, deleteInvoked := false })
      else
        let st3 := { st2 with storedChunks := st2.storedChunks ++ textChunks }
        let st4 := { st3 with doc := { st3.doc with processedAt := some deps.now } }
        (st4, { documentId := st.doc.id, chunksProcessed := textChunks.length,
                collectionName := collectionName, success := true, error := none },
         { loaderInvoked := loaderUsed, splitterInvoked := true, embedderInvoked := true,
           upsertInvoked := true, deleteInvoked := false })

/-- RAGService.reprocessDocument: delete the document's chunks when a
collection exists, reset processedAt to null, then run processDocument
again.  It does NOT touch textContent. -/
def reprocessDocument (deps : IngestDeps) (st : RagState) :
    RagState × ProcessDocumentResult × IngestEffects :=
  let del : RagState × Bool :=
    match st.project.qdrantCollectionId with
    | some _ => ({ st with storedChunks := [] }, true)
    | none => (st, false)
  let st2 : RagState := { del.1 with doc := { del.1.doc with processedAt := none } }
  let r := processDocument deps st2
  (r.1, r.2.1, { r.2.2 with deleteInvoked := del.2 || r.2.2.deleteInvoked })

/-- C7: for every document whose processedAt timestamp is already set,
processDocument returns a success result with the "Document already
processed" note, chunksProcessed 0 and the project's collection handle,
leaves the document row, project row and vector collection unchanged,
and invokes none of the loader, splitter, embedder, or vector store. -/
theorem C7_already_processed_noop (deps : IngestDeps) (st : RagState)
    (h : st.doc.processedAt.isSome) :
    processDocument deps st =
      (st, { documentId := st.doc.id, chunksProcessed := 0,
             collectionName := st.project.qdrantCollectionId.getD "",
             success := true, error := some "Document already processed" }, noEffects) := by
  rw [processDocument, if_pos h]

/-- Witness for C7: a concrete processed document. -/
theorem C7_witness :
    processDocument
        { loader := fun _ => "texto", splitter := fun t => [t],
          embedder := fun l => l.map (fun _ => [1]), now := 9 }
        { doc := { id := "d1", projectId := "p1", filename := "f.pdf",
                   textContent := some "texto antigo", processedAt := some 5, s3Key := "k1" },
          project := { qdrantCollectionId := some "project_p1" },
          storedChunks := ["velho"] } =
      ({ doc := { id := "d1", projectId := "p1", filename := "f.pdf",
                  textContent := some "texto antigo", processedAt := some 5, s3Key := "k1" },
         project := { qdrantCollectionId := some "project_p1" },
         storedChunks := ["velho"] },
       { documentId := "d1", chunksProcessed := 0, collectionName := "project_p1",
         success := true, error := some "Document already processed" }, noEffects) :=
  C7_already_processed_noop _ _ rfl

/-- C2 (counterexample): reprocessDocument does not clear the extracted
text.  On a document holding stale extracted text "TEXTO ANTIGO" while
the raw bytes would extract to "TEXTO NOVO DOS BYTES", reingesting
keeps the old blob, never invokes the loader, and re-indexes chunks of
the OLD text. -/
theorem C2_counterexample :
    (reprocessDocument
        { loader := fun _ => "TEXTO NOVO DOS BYTES", splitter := fun t => [t],
          embedder := fun l => l.map (fun _ => [1]), now := 9 }
        { doc := { id := "d1", projectId := "p1", filename := "f.pdf",
                   textContent := some "TEXTO ANTIGO", processedAt := some 5, s3Key := "k1" },
          project := { qdrantCollectionId := some "project_p1" },
          storedChunks := ["chunk antigo"] }).1.doc.textContent = some "TEXTO ANTIGO" ∧
      (reprocessDocument
        { loader := fun _ => "TEXTO NOVO DOS BYTES", splitter := fun t => [t],
          embedder := fun l => l.map (fun _ => [1]), now := 9 }
        { doc := { id := "d1", projectId := "p1", filename := "f.pdf",
                   textContent := some "TEXTO ANTIGO", processedAt := some 5, s3Key := "k1" },
          project := { qdrantCollectionId := some "project_p1" },
          storedChunks := ["chunk antigo"] }).2.2.loaderInvoked = false ∧
      (reprocessDocument
        { loader := fun _ => "TEXTO NOVO DOS BYTES", splitter := fun t => [t],
          embedder := fun l => l.map (fun _ => [1]), now := 9 }
        { doc := { id := "d1", projectId := "p1", filename := "f.pdf",
                   textContent := some "TEXTO ANTIGO", processedAt := some 5, s3Key := "k1" },
          project := { qdrantCollectionId := some "project_p1" },
          storedChunks := ["chunk antigo"] }).1.storedChunks = ["TEXTO ANTIGO"] := by
  decide

/-- An unprocessed document with stored extracted text keeps that text
through processDocument, and the loader is never invoked. -/
lemma processDocument_keeps_text (deps : IngestDeps) (st : RagState) (t : String)
    (hp : st.doc.processedAt = none) (ht : st.doc.textContent = some t) :
    (processDocument deps st).1.doc.textContent = some t ∧
      (processDocument deps st).2.2.loaderInvoked = false := by
  rw [processDocument]
  simp only [hp, ht, Option.isSome_none, Bool.false_eq_true, if_false]
  cases hcoll : st.project.qdrantCollectionId with
  | none =>
    simp only [hcoll]
    split
    · simp [ht]
    · split
      · simp [ht]
      · simp [ht]
  | some c =>
    simp only [hcoll]
    split
    · simp [ht]
    · split
      · simp [ht]
      · simp [ht]

/-- C2 (amended): reingest(document_id) clears only the processed_at
timestamp (after deleting the document's chunks); the extracted_text
blob is kept, so the subsequent ingest reuses the previously stored
extracted text and does not invoke the Document Loader whenever
extracted_text is present. -/
theorem C2_amended_reingest_keeps_text (deps : IngestDeps) (st : RagState)
    (h : st.doc.textContent.isSome) :
    (reprocessDocument deps st).1.doc.textContent = st.doc.textContent ∧
      (reprocessDocument deps st).2.2.loaderInvoked = false := by
  obtain ⟨t, ht⟩ := Option.isSome_iff_exists.mp h
  rw [ht]
  cases hcoll : st.project.qdrantCollectionId with
  | none =>
    simp only [reprocessDocument, hcoll]
    exact processDocument_keeps_text deps _ t rfl (by simpa using ht)
  | some c =>
    simp only [reprocessDocument, hcoll]
    exact processDocument_keeps_text deps _ t rfl (by simpa using ht)

/-- Witness for C2: the amended statement at the counterexample's
document. -/
theorem C2_witness :
    (reprocessDocument
        { loader := fun _ => "TEXTO NOVO DOS BYTES", splitter := fun t => [t],
          embedder := fun l => l.map (fun _ => [1]), now := 9 }
        { doc := { id := "d1", projectId := "p1", filename := "f.pdf",
                   textContent := some "TEXTO ANTIGO", processedAt := some 5, s3Key := "k1" },
          project := { qdrantCollectionId := some "project_p1" },
          storedChunks := ["chunk antigo"] }).1.doc.textContent = some "TEXTO ANTIGO" ∧
      (reprocessDocument
        { loader := fun _ => "TEXTO NOVO DOS BYTES", splitter := fun t => [t],
          embedder := fun l => l.map (fun _ => [1]), now := 9 }
        { doc := { id := "d1", projectId := "p1", filename := "f.pdf",
                   textContent := some "TEXTO ANTIGO", processedAt := some 5, s3Key := "k1" },
          project := { qdrantCollectionId := some "project_p1" },
          storedChunks := ["chunk antigo"] }).2.2.loaderInvoked = false :=
  C2_amended_reingest_keeps_text _ _ rfl

/-! ## Embedding provider retry (OpenAIService.generateEmbeddings)

Embedding of the retry loop of src/unnamed/part_006, lines 28-69: up to
`retries` provider calls, with a backoff wait of 2^(attempt-1) * 1000
milliseconds after each failed non-final attempt.  `oracle n` abstracts
the outcome of the n-th provider call (the embeddings array or the
thrown error's message). -/

/-- What a run of the retry loop produces: the final result, the
backoff waits performed (in milliseconds, in order), and how many
provider calls were made. -/
structure RetryTrace (α : Type) where
  result : Except String α
  waits : List Nat
  attempts : Nat

/-- The retry loop of OpenAIService.generateEmbeddings from attempt
number `attempt` on (the source's for-loop with its early returns); the
trailing guard after the loop is unreachable for `retries ≥ 1`. -/
def generateEmbeddingsFrom (α : Type) (oracle : Nat → Except String α)
    (retries attempt : Nat) : RetryTrace α :=
  if _h : retries < attempt then
    { result := .error "Unexpected error in generateEmbeddings", waits := [],
      attempts := attempt - 1 }
  else
    match oracle attempt with
    | .ok v => { result := .ok v, waits := [], attempts := attempt }
    | .error e =>
      if attempt = retries then
        { result := .error ("Failed to generate embeddings after " ++ toString retries ++
            " attempts: " ++ e), waits := [], attempts := attempt }
      else
        let waitTime := 2 ^ (attempt - 1) * 1000
        let r := generateEmbeddingsFrom α oracle retries (attempt + 1)
        { result := r.result, waits := waitTime :: r.waits, attempts := r.attempts }
termination_by retries + 1 - attempt
decreasing_by omega

/-- OpenAIService.generateEmbeddings with its default of 3 attempts. -/
def generateEmbeddings (α : Type) (oracle : Nat → Except String α)
    (retries : Nat := 3) : RetryTrace α :=
  generateEmbeddingsFrom α oracle retries 1

/-- C4: for every batch (every outcome oracle), generateEmbeddings
makes up to 3 provider calls, waits 1000 ms before the second attempt
and 2000 ms before the third, returns the first successful result, and
surfaces a failure only after the third attempt fails. -/
theorem C4_retry_schedule (α : Type) (oracle : Nat → Except String α) :
    generateEmbeddings α oracle =
      match oracle 1 with
      | .ok v => { result := .ok v, waits := [], attempts := 1 }
      | .error _ =>
        match oracle 2 with
        | .ok v => { result := .ok v, waits := [1000], attempts := 2 }
        | .error _ =>
          match oracle 3 with
          | .ok v => { result := .ok v, waits := [1000, 2000], attempts := 3 }
          | .error e =>
            { result := .error ("Failed to generate embeddings after 3 attempts: " ++ e),
              waits := [1000, 2000], attempts := 3 } := by
  have h3 : toString (3 : Nat) = "3" := rfl
  rw [generateEmbeddings]
  rw [generateEmbeddingsFrom]
  cases h1 : oracle 1 with
  | ok v => simp
  | error e1 =>
    simp only [show ¬(3 < 1) from by omega, dite_false]
    rw [generateEmbeddingsFrom]
    cases h2 : oracle 2 with
    | ok v => simp [show (1:Nat) ≠ 3 from by omega]
    | error e2 =>
      simp only [show ¬(3 < 2) from by omega, dite_false,
        show (1:Nat) ≠ 3 from by omega, if_false]
      rw [generateEmbeddingsFrom]
      cases h3' : oracle 3 with
      | ok v =>
        simp [show (1:Nat) ≠ 3 from by omega, show (2:Nat) ≠ 3 from by omega]
      | error e3 =>
        simp [show (1:Nat) ≠ 3 from by omega, show (2:Nat) ≠ 3 from by omega, h3]

/-! ## Generated files (GeneratedFilesService.createFile / createNewVersion)

Embedding of src/unnamed/part_004, lines 517-651 (the same logic as
src/unnamed/part_005, lines 68-202), over a state of generated-file rows
and version rows.  The asynchronous generation job that createFile and
createNewVersion launch without awaiting mutates only the version rows
later and is outside these claims.  Base-version content retrieval is
unimplemented in the source ("Base content retrieval not implemented
yet"), so baseContent is always empty. -/

/-- A generated_files row. -/
structure GeneratedFileRec where
  id : String
  projectId : String
  professorId : String
  fileName : String
  displayName : String
  fileType : String
  format : String
  currentVersion : Nat
deriving DecidableEq

/-- A generated_file_versions row (rows are created with empty storage
key and zero size/time, updated later by the background job). -/
structure GeneratedFileVersionRec where
  fileId : String
  version : Nat
  prompt : Option String
  editPrompt : Option String
  baseVersion : Option Nat
  s3Key : String
  sizeBytes : Nat
  generationTime : Nat
deriving DecidableEq

/-- The two tables of the subsystem. -/
structure FilesState where
  files : List GeneratedFileRec
  versions : List GeneratedFileVersionRec
deriving DecidableEq

/-- CreateFileParams (part_004 variant: format pdf|markdown; the file
type and format are plain strings here). -/
structure CreateFileParams where
  projectId : String
  professorId : String
  prompt : String
  displayName : String
  fileType : String
  format : String
deriving DecidableEq

/-- EditFileParams of createNewVersion. -/
structure EditFileParams where
  fileId : String
  editPrompt : String
  baseVersion : Option Nat
deriving DecidableEq

/-- generateFileName on strings (the character-list slug model). -/
def generateFileNameStr (displayName : String) : String :=
  String.mk (generateFileName displayName.data)

/-- prisma.generatedFile.findUnique on the (projectId, fileName)
composite unique key. -/
def findByProjectFileName (st : FilesState) (projectId fileName : String) :
    Option GeneratedFileRec :=
  st.files.find? (fun f => f.projectId == projectId && f.fileName == fileName)

/-- prisma.generatedFile.findUnique on the primary key. -/
def findById (st : FilesState) (fileId : String) : Option GeneratedFileRec :=
  st.files.find? (fun f => f.id == fileId)

/-- GeneratedFilesService.buildEditPrompt: with no base content the
edit prompt passes through as a fresh generation prompt. -/
def buildEditPrompt (editPrompt baseContent : String) : String :=
  if baseContent = "" then editPrompt
  else "\nEdit the following content based on this request: " ++ editPrompt ++
    "\n\nOriginal content:\n" ++ baseContent ++
    "\n\nProvide the complete updated content in the same format.\n"

/-- GeneratedFilesService.createNewVersion: look the file up, bump the
version (`params.baseVersion || file.currentVersion` treats 0 as
absent), persist the pending version row, and set currentVersion. -/
def createNewVersion (st : FilesState) (params : EditFileParams) :
    Except String (FilesState × GeneratedFileVersionRec) :=
  match findById st params.fileId with
  | none => .error "Arquivo não encontrado"
  | some file =>
    let newVersion := file.currentVersion + 1
    let baseVer : Nat :=
      match params.baseVersion with
      | some n => if n = 0 then file.currentVersion else n
      | none => file.currentVersion
    let baseContent := ""
    let version : GeneratedFileVersionRec :=
      { fileId := params.fileId, version := newVersion,
        prompt := some (buildEditPrompt params.editPrompt baseContent),
        editPrompt := some params.editPrompt, baseVersion := some baseVer,
        s3Key := "", sizeBytes := 0, generationTime := 0 }
    let st1 : FilesState :=
      { files := st.files.map (fun f =>
          if f.id == params.fileId then { f with currentVersion := newVersion } else f),
        versions := st.versions ++ [version] }
    .ok (st1, version)

/-- GeneratedFilesService.createFile: slug the display name; on a
(projectId, fileName) collision delegate to createNewVersion with the
call's prompt as edit prompt and return the re-fetched existing record;
otherwise create the file row (currentVersion defaults to 1, then is
set to 1) and its pending version row. -/
def createFile (st : FilesState) (params : CreateFileParams) (freshId : String) :
    Except String (FilesState × Option GeneratedFileRec) :=
  let fileName := generateFileNameStr params.displayName
  match findByProjectFileName st params.projectId fileName with
  | some existingFile =>
    match createNewVersion st
        { fileId := existingFile.id, editPrompt := params.prompt, baseVersion := none } with
    | .error e => .error e
    | .ok (st1, _) => .ok (st1, findById st1 existingFile.id)
  | none =>
    let file : GeneratedFileRec :=
      { id := freshId, projectId := params.projectId, professorId := params.professorId,
        fileName := fileName, displayName := params.displayName,
        fileType := params.fileType, format := params.format, currentVersion := 1 }
    let version : GeneratedFileVersionRec :=
      { fileId := freshId, version := 1, prompt := some params.prompt,
        editPrompt := none, baseVersion := none, s3Key := "", sizeBytes := 0,
        generationTime := 0 }
    .ok ({ files := st.files ++ [file], versions := st.versions ++ [version] }, some file)

/-- find? commutes with mapping a function that preserves the
predicate. -/
lemma find?_map_of_pred_preserved {u : GeneratedFileRec → GeneratedFileRec}
    {p : GeneratedFileRec → Bool} (hpres : ∀ g, p (u g) = p g) :
    ∀ l : List GeneratedFileRec, (l.map u).find? p = (l.find? p).map u := by
  intro l
  induction l with
  | nil => rfl
  | cons a t ih =>
    by_cases hpa : p a = true
    · simp [List.find?, hpres, hpa]
    · have hpa2 : p a = false := by simpa using hpa
      simp [List.find?, hpres, hpa2, ih]

/-- When ids are unique keys, looking a member record up by id finds
exactly that record. -/
lemma findById_of_uniq (st : FilesState) (f : GeneratedFileRec) (hmem : f ∈ st.files)
    (huniq : ∀ g ∈ st.files, g.id = f.id → g = f) : findById st f.id = some f := by
  have hsome : (st.files.find? (fun g => g.id == f.id)).isSome :=
    List.find?_isSome.mpr ⟨f, hmem, by simp⟩
  obtain ⟨g0, hg0⟩ := Option.isSome_iff_exists.mp hsome
  have hmem0 := List.mem_of_find?_eq_some hg0
  have hp := List.find?_some hg0
  rw [beq_iff_eq] at hp
  rw [findById, hg0, huniq g0 hmem0 hp]

/-- Looking up by id after bumping the record's currentVersion returns
the bumped record. -/
lemma findById_after_bump (st : FilesState) (f : GeneratedFileRec) (n : Nat)
    (hbyid : findById st f.id = some f) (vs : List GeneratedFileVersionRec) :
    findById
      { files := st.files.map (fun g =>
          if g.id == f.id then { g with currentVersion := n } else g),
        versions := vs }
      f.id = some { f with currentVersion := n } := by
  have hpres : ∀ g : GeneratedFileRec,
      ((if g.id == f.id then { g with currentVersion := n } else g).id == f.id)
        = (g.id == f.id) := by
    intro g
    by_cases hg : g.id = f.id <;> simp [hg]
  have hb2 : st.files.find? (fun g => g.id == f.id) = some f := hbyid
  simp only [findById]
  rw [find?_map_of_pred_preserved hpres st.files, hb2]
  simp

/-- C9: for every create_file call whose slugged display name collides
with an existing generated file of the same project (ids being unique
keys), the call creates exactly one new version row with the call's
prompt as the edit prompt and version currentVersion+1, updates only
that file's currentVersion, and returns the existing file record — its
displayName, fileType, and format are unchanged even when the call's
parameters for those fields differ. -/
theorem C9_collision_creates_version (st : FilesState) (params : CreateFileParams)
    (freshId : String) (f : GeneratedFileRec)
    (hfind : findByProjectFileName st params.projectId
      (generateFileNameStr params.displayName) = some f)
    (huniq : ∀ g ∈ st.files, g.id = f.id → g = f) :
    createFile st params freshId =
      .ok ({ files := st.files.map (fun g =>
               if g.id == f.id then { g with currentVersion := f.currentVersion + 1 } else g),
             versions := st.versions ++
               [{ fileId := f.id, version := f.currentVersion + 1,
                  prompt := some params.prompt, editPrompt := some params.prompt,
                  baseVersion := some f.currentVersion, s3Key := "", sizeBytes := 0,
                  generationTime := 0 }] },
            some { f with currentVersion := f.currentVersion + 1 }) := by
  have hmem : f ∈ st.files := List.mem_of_find?_eq_some hfind
  have hbyid : findById st f.id = some f := findById_of_uniq st f hmem huniq
  simp only [createFile, hfind]
  simp only [createNewVersion]
  simp only [hbyid]
  rw [findById_after_bump st f (f.currentVersion + 1) hbyid]
  simp [buildEditPrompt]

/-- Witness for C9: a colliding call whose displayName casing,
fileType and format all differ from the stored file's. -/
theorem C9_witness :
    createFile
        { files := [{ id := "gf1", projectId := "p1", professorId := "prof1",
                      fileName := "quiz-de-historia", displayName := "Quiz de Historia",
                      fileType := "quiz", format := "pdf", currentVersion := 1 }],
          versions := [{ fileId := "gf1", version := 1, prompt := some "primeiro prompt",
                         editPrompt := none, baseVersion := none, s3Key := "chave",
                         sizeBytes := 10, generationTime := 4 }] }
        { projectId := "p1", professorId := "prof1", prompt := "novo prompt",
          displayName := "quiz DE historia", fileType := "summary", format := "markdown" }
        "gf2" =
      .ok ({ files := [{ id := "gf1", projectId := "p1", professorId := "prof1",
                         fileName := "quiz-de-historia", displayName := "Quiz de Historia",
                         fileType := "quiz", format := "pdf", currentVersion := 2 }],
             versions := [{ fileId := "gf1", version := 1, prompt := some "primeiro prompt",
                            editPrompt := none, baseVersion := none, s3Key := "chave",
                            sizeBytes := 10, generationTime := 4 },
                          { fileId := "gf1", version := 2, prompt := some "novo prompt",
                            editPrompt := some "novo prompt", baseVersion := some 1,
                            s3Key := "", sizeBytes := 0, generationTime := 0 }] },
            some { id := "gf1", projectId := "p1", professorId := "prof1",
                   fileName := "quiz-de-historia", displayName := "Quiz de Historia",
                   fileType := "quiz", format := "pdf", currentVersion := 2 }) := by
  have h := C9_collision_creates_version
    { files := [{ id := "gf1", projectId := "p1", professorId := "prof1",
                  fileName := "quiz-de-historia", displayName := "Quiz de Historia",
                  fileType := "quiz", format := "pdf", currentVersion := 1 }],
      versions := [{ fileId := "gf1", version := 1, prompt := some "primeiro prompt",
                     editPrompt := none, baseVersion := none, s3Key := "chave",
                     sizeBytes := 10, generationTime := 4 }] }
    { projectId := "p1", professorId := "prof1", prompt := "novo prompt",
      displayName := "quiz DE historia", fileType := "summary", format := "markdown" }
    "gf2"
    { id := "gf1", projectId := "p1", professorId := "prof1",
      fileName := "quiz-de-historia", displayName := "Quiz de Historia",
      fileType := "quiz", format := "pdf", currentVersion := 1 }
    (by decide) (by decide)
  simpa using h

end StudyFlow
